import Mathlib

/-!
Shallow embedding of the `SearchableSelect` widget
(`webview-ui/src/components/ui/searchable-select.tsx`): its option data
model, the pure derivation pipeline (search filter, enabled subset,
default highlight), the event handlers, and a step relation over widget
states including the debounced search-reset timers.
-/

namespace SearchableSelect

/-- One selectable entry, mirroring `SearchableSelectOption` from the source
(the opaque `icon` display handle is irrelevant to behaviour and omitted;
the optional `disabled?: boolean` is modelled as a `Bool` that is `false`
when the caller omits it, matching how `!option.disabled` and
`option.disabled &&` read it). -/
structure SearchableSelectOption where
  value : String
  label : String
  disabled : Bool := false
deriving Repr, DecidableEq

/-- Mirrors JavaScript `needle.every-position prefix test`: `a` is an initial
segment of `b`. -/
def charsStartWith : List Char → List Char → Bool
  | [], _ => true
  | _ :: _, [] => false
  | a :: as, b :: bs => a == b && charsStartWith as bs

/-- Occurrence of `needle` as a contiguous run inside `hay`. -/
def charsInclude (needle : List Char) : List Char → Bool
  | [] => needle.isEmpty
  | b :: bs => charsStartWith needle (b :: bs) || charsInclude needle bs

/-- Embedding of JavaScript `hay.includes(needle)` on strings. -/
def strIncludes (hay needle : String) : Bool :=
  charsInclude needle.toList hay.toList

/-- Embedding of JavaScript `s.toLowerCase()`: lower-case every character
(written over the character list so that it evaluates by kernel
reduction). -/
def strToLower (s : String) : String :=
  ⟨s.data.map Char.toLower⟩

/-- The caller-supplied props the behaviour depends on: `value` (the
committed selection, `none` when the prop is absent) and `options`. -/
structure Props where
  value : Option String
  options : List SearchableSelectOption
deriving Repr, DecidableEq

/-- The widget's own mutable state: the three `useState` cells plus the
bookkeeping refs (`searchResetTimeoutRef`, the value-effect timeout and
`isMountedRef`).  Pending timeouts are modelled by the identifier of the
currently armed timer (`none` = no pending timer); `timerSeq` is a
monotone source of fresh identifiers, so that cancellation and
re-scheduling are observable. -/
structure WidgetState where
  openState : Bool
  searchValue : String
  highlightedIndex : Int
  closeTimer : Option Nat
  valueTimer : Option Nat
  timerSeq : Nat
  isMounted : Bool
deriving Repr, DecidableEq

/-- State after mount: closed, empty search, highlight `-1`;  the
`useEffect` keyed on `value` runs once on mount, arming a first
search-reset timeout. -/
def initState : WidgetState :=
  { openState := false
    searchValue := ""
    highlightedIndex := -1
    closeTimer := none
    valueTimer := some 0
    timerSeq := 1
    isMounted := true }

/-- Memo `filteredOptions`: the whole list when the search text is empty
(JS `!searchValue` truthiness), otherwise the case-insensitive
substring filter on labels. -/
def filteredOptions (options : List SearchableSelectOption) (searchValue : String) :
    List SearchableSelectOption :=
  if searchValue = "" then options
  else options.filter (fun o => strIncludes (strToLower o.label) (strToLower searchValue))

/-- Memo `enabledFilteredOptions`: the enabled subsequence of the filtered
options. -/
def enabledFilteredOptions (options : List SearchableSelectOption) (searchValue : String) :
    List SearchableSelectOption :=
  (filteredOptions options searchValue).filter (fun o => !o.disabled)

/-- Callback `getDefaultHighlightedIndex`: `-1` when no enabled filtered option
exists; otherwise the index of the committed value among them when the
`value` prop is truthy (defined and non-empty) and found; otherwise `0`. -/
def getDefaultHighlightedIndex (p : Props) (searchValue : String) : Int :=
  let nav := enabledFilteredOptions p.options searchValue
  if nav.length = 0 then -1
  else
    match p.value with
    | some v =>
      if v = "" then 0
      else
        match nav.findIdx? (fun o => o.value == v) with
        | some i => (i : Int)
        | none => 0
    | none => 0

end SearchableSelect

namespace SearchableSelect

/-- The keyboard keys the input handler distinguishes; every other key is
`Key.other`. -/
inductive Key where
  | arrowDown
  | arrowUp
  | enter
  | other
deriving Repr, DecidableEq

/-- Handler `handleSelect`: close the popover and report the chosen value through
`onValueChange` (the reported value is the second component). -/
def handleSelect (s : WidgetState) (selectedValue : String) : WidgetState × Option String :=
  ({ s with openState := false }, some selectedValue)

/-- The `onSelect` handler attached to each rendered option row
(`onSelect={() => handleSelect(option.value)}`): it forwards to
`handleSelect` with no check of `o.disabled`. -/
def itemOnSelect (o : SearchableSelectOption) (s : WidgetState) : WidgetState × Option String :=
  handleSelect s o.value

/-- Handler `handleOpenChange`: set the open flag, recompute the highlight (default
rule on open, `-1` on close), and on close cancel any pending
search-reset timeout and arm a fresh one. -/
def handleOpenChange (p : Props) (s : WidgetState) (next : Bool) : WidgetState :=
  let s1 := { s with
    openState := next
    highlightedIndex := if next then getDefaultHighlightedIndex p s.searchValue else -1 }
  if next then s1
  else { s1 with closeTimer := some s1.timerSeq, timerSeq := s1.timerSeq + 1 }

/-- Handler `handleSearchValueChange`: store the new search text and reset the
highlight to `0`, unconditionally. -/
def handleSearchValueChange (s : WidgetState) (next : String) : WidgetState :=
  { s with searchValue := next, highlightedIndex := 0 }

/-- Handler `handleClearSearch`: the clear-icon click empties the search text
without touching the highlight. -/
def handleClearSearch (s : WidgetState) : WidgetState :=
  { s with searchValue := "" }

/-- Handler `handleInputKeyDown`: no-op when no enabled filtered option exists;
arrow keys move the highlight with wraparound (JavaScript `%` is
truncating, hence `Int.tmod`); Enter with a non-negative highlight looks
the highlighted option up and selects it when the lookup succeeds. -/
def handleInputKeyDown (p : Props) (s : WidgetState) (k : Key) : WidgetState × Option String :=
  let nav := enabledFilteredOptions p.options s.searchValue
  if nav.length = 0 then (s, none)
  else
    match k with
    | Key.arrowDown | Key.arrowUp =>
      let direction : Int := if k = Key.arrowDown then 1 else -1
      let safeIndex : Int := if s.highlightedIndex = -1 then 0 else s.highlightedIndex
      let nextIndex : Int := Int.tmod (safeIndex + direction + (nav.length : Int)) (nav.length : Int)
      ({ s with highlightedIndex := nextIndex }, none)
    | Key.enter =>
      if 0 ≤ s.highlightedIndex then
        match nav.get? s.highlightedIndex.toNat with
        | some o => handleSelect s o.value
        | none => (s, none)
      else (s, none)
    | Key.other => (s, none)

/-- The events a widget instance can receive: popover open/close, search
input, keyboard input, pointer hover and click on the `i`-th rendered
(filtered) row, the clear-icon click, the escape-key hook, a change of
the caller-supplied props, the firing of an armed timeout, and teardown. -/
inductive Event where
  | openChange (next : Bool)
  | searchChange (text : String)
  | keyDown (k : Key)
  | hoverOption (i : Nat)
  | clickOption (i : Nat)
  | clearSearch
  | escapeKey
  | setProps (q : Props)
  | fireCloseTimer (tid : Nat)
  | fireValueTimer (tid : Nat)
  | unmount
deriving Repr, DecidableEq

/-- A widget instance: current props plus current widget state. -/
structure Config where
  props : Props
  state : WidgetState
deriving Repr, DecidableEq

/-- One event-handling turn.  The second component is the value passed to
`onValueChange` during the turn, if any.  Hover and click are guarded by
the toolkit collaborator: a row exists for each filtered option, and the
toolkit suppresses clicks on rows rendered with `disabled`; a timeout
fires only while it is the armed one (`clearTimeout` removes it);
the `useEffect` keyed on `value` re-arms the value timeout exactly when
the `value` prop changes, and teardown runs both cleanups. -/
def step (c : Config) : Event → Config × Option String
  | Event.openChange next => (⟨c.props, handleOpenChange c.props c.state next⟩, none)
  | Event.searchChange t => (⟨c.props, handleSearchValueChange c.state t⟩, none)
  | Event.keyDown k =>
      let r := handleInputKeyDown c.props c.state k
      (⟨c.props, r.1⟩, r.2)
  | Event.hoverOption i =>
      match (filteredOptions c.props.options c.state.searchValue).get? i with
      | some o =>
        if o.disabled then (c, none)
        else
          let idx : Int :=
            match (enabledFilteredOptions c.props.options c.state.searchValue).findIdx?
                (fun e => e.value == o.value) with
            | some j => (j : Int)
            | none => -1
          (⟨c.props, { c.state with highlightedIndex := idx }⟩, none)
      | none => (c, none)
  | Event.clickOption i =>
      match (filteredOptions c.props.options c.state.searchValue).get? i with
      | some o =>
        if o.disabled then (c, none)
        else
          let r := itemOnSelect o c.state
          (⟨c.props, r.1⟩, r.2)
      | none => (c, none)
  | Event.clearSearch => (⟨c.props, handleClearSearch c.state⟩, none)
  | Event.escapeKey =>
      if c.state.openState then (⟨c.props, { c.state with openState := false }⟩, none)
      else (c, none)
  | Event.setProps q =>
      if q.value = c.props.value then (⟨q, c.state⟩, none)
      else
        (⟨q, { c.state with
                valueTimer := some c.state.timerSeq
                timerSeq := c.state.timerSeq + 1 }⟩, none)
  | Event.fireCloseTimer tid =>
      match c.state.closeTimer with
      | some j =>
        if j = tid then
          (⟨c.props, { c.state with searchValue := "", closeTimer := none }⟩, none)
        else (c, none)
      | none => (c, none)
  | Event.fireValueTimer tid =>
      match c.state.valueTimer with
      | some j =>
        if j = tid then
          if c.state.isMounted then
            (⟨c.props, { c.state with searchValue := "", valueTimer := none }⟩, none)
          else (⟨c.props, { c.state with valueTimer := none }⟩, none)
        else (c, none)
      | none => (c, none)
  | Event.unmount =>
      (⟨c.props, { c.state with isMounted := false, closeTimer := none, valueTimer := none }⟩,
        none)

/-- The configurations a freshly mounted instance can evolve into. -/
inductive Reachable : Config → Prop where
  | init (p : Props) : Reachable ⟨p, initState⟩
  | next (c : Config) (e : Event) : Reachable c → Reachable (step c e).1

/-- The navigable options of a configuration. -/
def navigable (c : Config) : List SearchableSelectOption :=
  enabledFilteredOptions c.props.options c.state.searchValue

end SearchableSelect

namespace SearchableSelect

/-- The spec's three-tier default-highlight rule as literally stated
(§4.3): tier 2 applies whenever the caller's current SelectedValue
matches an entry of the navigable options — with no truthiness proviso,
so an empty-string SelectedValue participates in the match.  Kept beside
`getDefaultHighlightedIndex` for comparison. -/
def specDefaultHighlightedIndex (p : Props) (searchValue : String) : Int :=
  let nav := enabledFilteredOptions p.options searchValue
  if nav.length = 0 then -1
  else
    match p.value with
    | some v =>
      match nav.findIdx? (fun o => o.value == v) with
      | some i => (i : Int)
      | none => 0
    | none => 0

/-- The amended three-tier rule: tier 2 is consulted only when the
SelectedValue prop is present and non-empty (JavaScript truthiness);
an absent or empty-string SelectedValue falls through to tier 3. -/
def amendedDefaultHighlightedIndex (p : Props) (searchValue : String) : Int :=
  let nav := enabledFilteredOptions p.options searchValue
  if nav.length = 0 then -1
  else
    match p.value with
    | some v =>
      if v ≠ "" then
        match nav.findIdx? (fun o => o.value == v) with
        | some i => (i : Int)
        | none => 0
      else 0
    | none => 0

/-- The invariant claimed for HighlightIndex (§3 of the spec): within
`[-1, |NavigableOptions| - 1]`, `-1` only when no navigable option
exists, and a non-negative index always denotes an enabled,
currently-visible option. -/
def SpecHighlightInvariant (c : Config) : Prop :=
  -1 ≤ c.state.highlightedIndex ∧
  c.state.highlightedIndex ≤ (navigable c).length - 1 ∧
  (c.state.highlightedIndex = -1 → (navigable c).length = 0) ∧
  (0 ≤ c.state.highlightedIndex →
    ∃ o, (navigable c).get? c.state.highlightedIndex.toNat = some o ∧
      o.disabled = false ∧ o ∈ filteredOptions c.props.options c.state.searchValue)

/-- Enabled option "Alpha". -/
def optA : SearchableSelectOption := ⟨"a", "Alpha", false⟩

/-- Enabled option "Beta". -/
def optB : SearchableSelectOption := ⟨"b", "Beta", false⟩

/-- Enabled option "Gamma". -/
def optC : SearchableSelectOption := ⟨"c", "Gamma", false⟩

/-- An enabled option whose identifier is the empty string. -/
def optBlank : SearchableSelectOption := ⟨"", "Blank", false⟩

/-- A disabled option. -/
def optXDis : SearchableSelectOption := ⟨"x", "Xray", true⟩

/-- Caller props with an empty-string committed value that matches
`optBlank`, the second navigable option. -/
def blankValueConfig : Config := ⟨⟨some "", [optA, optBlank]⟩, initState⟩

/-- An open widget over two enabled options with nothing highlighted. -/
def noHighlightConfig : Config :=
  ⟨⟨none, [optA, optB]⟩, { initState with openState := true }⟩

/-- An open widget over three enabled options, highlight on the last. -/
def lastHighlightConfig : Config :=
  ⟨⟨none, [optA, optB, optC]⟩, { initState with openState := true, highlightedIndex := 2 }⟩

/-- An open widget whose highlight is stale: index 5 over a single
navigable option (reachable when the caller shrinks the options prop
while the popover is open). -/
def staleHighlightConfig : Config :=
  ⟨⟨none, [optA]⟩, { initState with openState := true, highlightedIndex := 5 }⟩

/-- An open widget over two enabled options, highlight on the second. -/
def secondHighlightConfig : Config :=
  ⟨⟨none, [optA, optB]⟩, { initState with openState := true, highlightedIndex := 1 }⟩

/-- A single-option instance: open it, then type a search text that
matches nothing. -/
def searchedOutConfig : Config :=
  (step (step ⟨⟨none, [optA]⟩, initState⟩ (Event.openChange true)).1
    (Event.searchChange "z")).1

/-- A single-option instance after open, typing "ab", and close: the
close arms the debounced search-reset timeout (identifier 1). -/
def closedPendingConfig : Config :=
  (step (step (step ⟨⟨none, [optA]⟩, initState⟩ (Event.openChange true)).1
      (Event.searchChange "ab")).1
    (Event.openChange false)).1

/-- Configuration `closedPendingConfig` reopened before the pending reset fires. -/
def reopenedConfig : Config := (step closedPendingConfig (Event.openChange true)).1

/-- Configuration `reopenedConfig` after the stale close-scheduled reset fires. -/
def reopenedFiredConfig : Config := (step reopenedConfig (Event.fireCloseTimer 1)).1

/-- An open widget rendering one enabled and one disabled option row. -/
def disabledRowConfig : Config :=
  ⟨⟨none, [optA, optXDis]⟩, { initState with openState := true }⟩

end SearchableSelect

namespace SearchableSelect

theorem charsInclude_nil (l : List Char) : charsInclude [] l = true := by
  induction l with
  | nil => rfl
  | cons b bs ih => simp [charsInclude, charsStartWith]

theorem strIncludes_empty (hay : String) : strIncludes hay "" = true := by
  show charsInclude [] hay.toList = true
  exact charsInclude_nil hay.toList

theorem strToLower_empty : strToLower "" = "" := rfl

theorem getDefault_ge (p : Props) (s : String) :
    -1 ≤ getDefaultHighlightedIndex p s := by
  simp only [getDefaultHighlightedIndex]
  repeat' split
  all_goals omega

theorem reachable_hi_ge (c : Config) (h : Reachable c) :
    -1 ≤ c.state.highlightedIndex := by
  induction h with
  | init p => simp [initState]
  | next c e hc ih =>
    cases e with
    | openChange next =>
      cases next with
      | true =>
        simpa [step, handleOpenChange] using getDefault_ge c.props c.state.searchValue
      | false => simp [step, handleOpenChange]
    | searchChange t => simp [step, handleSearchValueChange]
    | keyDown k =>
      by_cases hN : (enabledFilteredOptions c.props.options c.state.searchValue).length = 0
      · simpa [step, handleInputKeyDown, hN] using ih
      · cases k with
        | arrowDown =>
          simp only [step, handleInputKeyDown, hN, if_false]
          have h0 : 0 ≤ Int.tmod
              ((if c.state.highlightedIndex = -1 then 0 else c.state.highlightedIndex) + 1 +
                ((enabledFilteredOptions c.props.options c.state.searchValue).length : Int))
              ((enabledFilteredOptions c.props.options c.state.searchValue).length : Int) := by
            apply Int.tmod_nonneg
            split <;> omega
          simpa using le_trans (by omega : (-1 : Int) ≤ 0) h0
        | arrowUp =>
          simp only [step, handleInputKeyDown, hN, if_false]
          have h0 : 0 ≤ Int.tmod
              ((if c.state.highlightedIndex = -1 then 0 else c.state.highlightedIndex) + -1 +
                ((enabledFilteredOptions c.props.options c.state.searchValue).length : Int))
              ((enabledFilteredOptions c.props.options c.state.searchValue).length : Int) := by
            apply Int.tmod_nonneg
            split <;> omega
          simpa using le_trans (by omega : (-1 : Int) ≤ 0) h0
        | enter =>
          simp only [step, handleInputKeyDown, hN, if_false]
          split
          · split
            · simpa [handleSelect] using ih
            · simpa using ih
          · simpa using ih
        | other => simpa [step, handleInputKeyDown, hN] using ih
    | hoverOption i =>
      simp only [step]
      split
      · split
        · simpa using ih
        · split
          · simp
            omega
          · simp
      · simpa using ih
    | clickOption i =>
      simp only [step]
      split
      · split
        · simpa using ih
        · simpa [itemOnSelect, handleSelect] using ih
      · simpa using ih
    | clearSearch => simpa [step, handleClearSearch] using ih
    | escapeKey =>
      simp only [step]
      split <;> simpa using ih
    | setProps q =>
      simp only [step]
      split <;> simpa using ih
    | fireCloseTimer tid =>
      simp only [step]
      split
      · split <;> simpa using ih
      · simpa using ih
    | fireValueTimer tid =>
      simp only [step]
      split
      · split
        · split <;> simpa using ih
        · simpa using ih
      · simpa using ih
    | unmount => simpa [step] using ih

end SearchableSelect


namespace SearchableSelect

theorem handleInputKeyDown_frame (p : Props) (s : WidgetState) (k : Key) :
    (handleInputKeyDown p s k).1.closeTimer = s.closeTimer ∧
    (handleInputKeyDown p s k).1.valueTimer = s.valueTimer ∧
    (handleInputKeyDown p s k).1.timerSeq = s.timerSeq ∧
    (handleInputKeyDown p s k).1.searchValue = s.searchValue ∧
    (handleInputKeyDown p s k).1.isMounted = s.isMounted := by
  by_cases hN : (enabledFilteredOptions p.options s.searchValue).length = 0
  · simp [handleInputKeyDown, hN]
  · cases k with
    | arrowDown => simp [handleInputKeyDown, hN]
    | arrowUp => simp [handleInputKeyDown, hN]
    | enter =>
      simp only [handleInputKeyDown, hN, if_false]
      split
      · split <;> simp [handleSelect]
      · simp
    | other => simp [handleInputKeyDown, hN]

theorem step_hover_frame (c : Config) (i : Nat) :
    (step c (Event.hoverOption i)).1.state.closeTimer = c.state.closeTimer ∧
    (step c (Event.hoverOption i)).1.state.valueTimer = c.state.valueTimer ∧
    (step c (Event.hoverOption i)).1.state.timerSeq = c.state.timerSeq := by
  simp only [step]
  split
  · split
    · simp
    · split <;> simp
  · simp

theorem step_click_frame (c : Config) (i : Nat) :
    (step c (Event.clickOption i)).1.state.closeTimer = c.state.closeTimer ∧
    (step c (Event.clickOption i)).1.state.valueTimer = c.state.valueTimer ∧
    (step c (Event.clickOption i)).1.state.timerSeq = c.state.timerSeq := by
  simp only [step]
  split
  · split
    · simp
    · simp [itemOnSelect, handleSelect]
  · simp

theorem step_escape_frame (c : Config) :
    (step c Event.escapeKey).1.state.closeTimer = c.state.closeTimer ∧
    (step c Event.escapeKey).1.state.valueTimer = c.state.valueTimer ∧
    (step c Event.escapeKey).1.state.timerSeq = c.state.timerSeq := by
  simp only [step]
  split <;> simp

theorem reachable_timersFresh (c : Config) (h : Reachable c) :
    (∀ i, c.state.closeTimer = some i → i < c.state.timerSeq) ∧
    (∀ i, c.state.valueTimer = some i → i < c.state.timerSeq) := by
  induction h with
  | init p =>
    refine ⟨fun i hi => ?_, fun i hi => ?_⟩ <;> simp [initState] at hi ⊢
    omega
  | next c e hc ih =>
    obtain ⟨ihc, ihv⟩ := ih
    cases e with
    | openChange next =>
      cases next with
      | true => simpa [step, handleOpenChange] using ⟨ihc, ihv⟩
      | false =>
        refine ⟨fun i hi => ?_, fun i hi => ?_⟩ <;>
          simp [step, handleOpenChange] at hi ⊢
        · omega
        · exact lt_trans (ihv i hi) (by omega)
    | searchChange t => simpa [step, handleSearchValueChange] using ⟨ihc, ihv⟩
    | keyDown k =>
      have hf := handleInputKeyDown_frame c.props c.state k
      have hst : (step c (Event.keyDown k)).1.state = (handleInputKeyDown c.props c.state k).1 :=
        rfl
      refine ⟨fun i hi => ?_, fun i hi => ?_⟩ <;> rw [hst] at hi ⊢
      · rw [hf.1] at hi
        rw [hf.2.2.1]
        exact ihc i hi
      · rw [hf.2.1] at hi
        rw [hf.2.2.1]
        exact ihv i hi
    | hoverOption i0 =>
      have hf := step_hover_frame c i0
      refine ⟨fun i hi => ?_, fun i hi => ?_⟩
      · rw [hf.1] at hi
        rw [hf.2.2]
        exact ihc i hi
      · rw [hf.2.1] at hi
        rw [hf.2.2]
        exact ihv i hi
    | clickOption i0 =>
      have hf := step_click_frame c i0
      refine ⟨fun i hi => ?_, fun i hi => ?_⟩
      · rw [hf.1] at hi
        rw [hf.2.2]
        exact ihc i hi
      · rw [hf.2.1] at hi
        rw [hf.2.2]
        exact ihv i hi
    | clearSearch => simpa [step, handleClearSearch] using ⟨ihc, ihv⟩
    | escapeKey =>
      have hf := step_escape_frame c
      refine ⟨fun i hi => ?_, fun i hi => ?_⟩
      · rw [hf.1] at hi
        rw [hf.2.2]
        exact ihc i hi
      · rw [hf.2.1] at hi
        rw [hf.2.2]
        exact ihv i hi
    | setProps q =>
      by_cases hq : q.value = c.props.value
      · simpa [step, hq] using ⟨ihc, ihv⟩
      · refine ⟨fun i hi => ?_, fun i hi => ?_⟩ <;>
          simp [step, hq] at hi ⊢
        · exact lt_trans (ihc i hi) (by omega)
        · omega
    | fireCloseTimer tid =>
      refine ⟨fun i hi => ?_, fun i hi => ?_⟩ <;>
        simp only [step] at hi ⊢
      · revert hi
        split
        · split
          · simp
          · intro hi
            exact ihc i hi
        · intro hi
          exact ihc i hi
      · revert hi
        split
        · split
          · simp
            intro hi
            exact ihv i hi
          · intro hi
            exact ihv i hi
        · intro hi
          exact ihv i hi
    | fireValueTimer tid =>
      refine ⟨fun i hi => ?_, fun i hi => ?_⟩ <;>
        simp only [step] at hi ⊢
      · revert hi
        split
        · split
          · split
            · simp
              intro hi
              exact ihc i hi
            · simp
              intro hi
              exact ihc i hi
          · intro hi
            exact ihc i hi
        · intro hi
          exact ihc i hi
      · revert hi
        split
        · split
          · split <;> simp
          · intro hi
            exact ihv i hi
        · intro hi
          exact ihv i hi
    | unmount =>
      refine ⟨fun i hi => ?_, fun i hi => ?_⟩ <;> simp [step] at hi

end SearchableSelect

namespace SearchableSelect

/-- Claim C5: FilteredOptions is a pure function of Options and SearchText:
it is Options itself when the search text is empty; it is always an
order-preserving subsequence (sublist) of Options consisting exactly of
the options whose lower-cased label contains the lower-cased search text,
so every element of FilteredOptions matches the search text
case-insensitively. -/
theorem filteredOptions_spec (options : List SearchableSelectOption) (s : String) :
    (s = "" → filteredOptions options s = options) ∧
    List.Sublist (filteredOptions options s) options ∧
    (∀ o, o ∈ filteredOptions options s →
      strIncludes (strToLower o.label) (strToLower s) = true) ∧
    (∀ o, o ∈ options → strIncludes (strToLower o.label) (strToLower s) = true →
      o ∈ filteredOptions options s) := by
  refine ⟨fun h => by simp [filteredOptions, h], ?_, ?_, ?_⟩
  · unfold filteredOptions
    split
    · exact List.Sublist.refl options
    · exact List.filter_sublist options
  · intro o ho
    by_cases h : s = ""
    · subst h
      rw [strToLower_empty]
      exact strIncludes_empty _
    · unfold filteredOptions at ho
      rw [if_neg h] at ho
      exact (List.mem_filter.mp ho).2
  · intro o ho hinc
    by_cases h : s = ""
    · simpa [filteredOptions, h] using ho
    · unfold filteredOptions
      rw [if_neg h]
      exact List.mem_filter.mpr ⟨ho, hinc⟩

/-- Witness for C5: the identity law at an empty search text, and the
containment property at search text "al" and option "Alpha". -/
theorem filteredOptions_spec_witness :
    filteredOptions [optA, optB] "" = [optA, optB] ∧
    strIncludes (strToLower optA.label) (strToLower "al") = true := by
  refine ⟨(filteredOptions_spec [optA, optB] "").1 rfl,
    (filteredOptions_spec [optA, optB] "al").2.2.1 optA ?_⟩
  decide

/-- Claim C6: NavigableOptions is the order-preserving subsequence of
FilteredOptions whose elements have `disabled = false`: it equals the
disabled-free filter of FilteredOptions, is a sublist of it, contains no
disabled entry, and keeps every enabled filtered option. -/
theorem enabledFilteredOptions_spec (options : List SearchableSelectOption) (s : String) :
    enabledFilteredOptions options s =
      (filteredOptions options s).filter (fun o => !o.disabled) ∧
    List.Sublist (enabledFilteredOptions options s) (filteredOptions options s) ∧
    (∀ o, o ∈ enabledFilteredOptions options s → o.disabled = false) ∧
    (∀ o, o ∈ filteredOptions options s → o.disabled = false →
      o ∈ enabledFilteredOptions options s) := by
  refine ⟨rfl, List.filter_sublist _, ?_, ?_⟩
  · intro o ho
    have hmem := (List.mem_filter.mp ho).2
    simpa using hmem
  · intro o ho hd
    exact List.mem_filter.mpr ⟨ho, by simp [hd]⟩

/-- Witness for C6: at a list with one disabled entry, the navigable
subset is a sublist of the filtered options and its member is enabled. -/
theorem enabledFilteredOptions_spec_witness :
    optA.disabled = false ∧
    List.Sublist (enabledFilteredOptions [optA, optXDis] "") (filteredOptions [optA, optXDis] "") := by
  refine ⟨(enabledFilteredOptions_spec [optA, optXDis] "").2.2.1 optA ?_,
    (enabledFilteredOptions_spec [optA, optXDis] "").2.1⟩
  decide

/-- Claim C7: a search-text change stores the new text and resets the
highlight to 0 unconditionally — for every prior state, with no other
widget-state change and no callback. -/
theorem searchChange_resets_highlight (c : Config) (t : String) :
    (step c (Event.searchChange t)).1.state.highlightedIndex = 0 ∧
    (step c (Event.searchChange t)).1.state.searchValue = t ∧
    (step c (Event.searchChange t)).1.state.openState = c.state.openState ∧
    (step c (Event.searchChange t)).1.props = c.props ∧
    (step c (Event.searchChange t)).2 = none :=
  ⟨rfl, rfl, rfl, rfl, rfl⟩

/-- Claim C10: Enter with a stale highlight — at least one navigable
option but HighlightIndex at or past the end — is guarded by the failed
lookup: the configuration is unchanged and no callback fires. -/
theorem enter_stale_guarded (c : Config)
    (h0 : 0 < (navigable c).length)
    (h : ((navigable c).length : Int) ≤ c.state.highlightedIndex) :
    step c (Event.keyDown Key.enter) = (c, none) := by
  unfold navigable at h0 h
  have hN : ¬(enabledFilteredOptions c.props.options c.state.searchValue).length = 0 := by
    omega
  have hge : 0 ≤ c.state.highlightedIndex := by omega
  have hnone : (enabledFilteredOptions c.props.options
      c.state.searchValue)[c.state.highlightedIndex.toNat]? = none := by
    rw [← List.get?_eq_getElem?, List.get?_eq_none]
    omega
  have hr : handleInputKeyDown c.props c.state Key.enter = (c.state, none) := by
    simp [handleInputKeyDown, hN, hge, hnone]
  show (⟨c.props, (handleInputKeyDown c.props c.state Key.enter).1⟩,
    (handleInputKeyDown c.props c.state Key.enter).2) = (c, none)
  rw [hr]

/-- Witness for C10 at a single-option widget whose highlight is the
stale index 5. -/
theorem enter_stale_guarded_witness :
    step staleHighlightConfig (Event.keyDown Key.enter) = (staleHighlightConfig, none) :=
  enter_stale_guarded staleHighlightConfig (by decide) (by decide)

end SearchableSelect

namespace SearchableSelect

theorem getDefault_eq_amended (p : Props) (s : String) :
    getDefaultHighlightedIndex p s = amendedDefaultHighlightedIndex p s := by
  by_cases h0 : (enabledFilteredOptions p.options s).length = 0
  · simp [getDefaultHighlightedIndex, amendedDefaultHighlightedIndex, h0]
  · cases hv : p.value with
    | none => simp [getDefaultHighlightedIndex, amendedDefaultHighlightedIndex, h0, hv]
    | some v =>
      by_cases hve : v = "" <;>
        simp [getDefaultHighlightedIndex, amendedDefaultHighlightedIndex, h0, hv, hve]

/-- Claim C1 (amended): on every open of the popover the initial highlight
is computed afresh — independent of the previous session's highlight —
by the three-tier rule with tier 2 guarded by JavaScript truthiness:
`-1` when no navigable option exists; else, when the SelectedValue prop
is present, non-empty and matches a navigable entry, that entry's index;
else 0.  An empty-string SelectedValue is ignored even when it matches
an option. -/
theorem open_initial_highlight (c : Config) :
    (step c (Event.openChange true)).1.state.highlightedIndex =
      amendedDefaultHighlightedIndex c.props c.state.searchValue := by
  have hstep : (step c (Event.openChange true)).1.state.highlightedIndex =
      getDefaultHighlightedIndex c.props c.state.searchValue := by
    simp [step, handleOpenChange]
  rw [hstep, getDefault_eq_amended]

/-- Counterexample to claim C1 as stated: with SelectedValue the empty
string and options `[optA, optBlank]` (where `optBlank.value = ""`),
opening highlights index 0, while the spec's three-tier rule demands the
matching entry's index 1. -/
theorem open_initial_highlight_cex :
    blankValueConfig.props.value = some "" ∧
    (step blankValueConfig (Event.openChange true)).1.state.highlightedIndex = 0 ∧
    specDefaultHighlightedIndex blankValueConfig.props blankValueConfig.state.searchValue = 1 ∧
    (0 : Int) ≠ 1 := by decide

/-- Claim C2 (amended): with at least one navigable option, ArrowDown
moves the highlight to `(safe + 1) mod N` and ArrowUp to
`(safe - 1 + N) mod N`, where `safe` is 0 when the highlight is -1 and
the current highlight otherwise — so ArrowDown from `N-1` wraps to 0 and
ArrowUp from 0 wraps to `N-1`, but from highlight -1 ArrowDown yields
`1 mod N` (not 0) and ArrowUp yields `N-1`; with no navigable option both
keys are no-ops. -/
theorem arrow_key_transition (c : Config) (h : -1 ≤ c.state.highlightedIndex) :
    ((navigable c).length = 0 →
      step c (Event.keyDown Key.arrowDown) = (c, none) ∧
      step c (Event.keyDown Key.arrowUp) = (c, none)) ∧
    (0 < (navigable c).length →
      (step c (Event.keyDown Key.arrowDown)).1.state.highlightedIndex =
        ((if c.state.highlightedIndex = -1 then 0 else c.state.highlightedIndex) + 1) %
          ((navigable c).length : Int) ∧
      (step c (Event.keyDown Key.arrowUp)).1.state.highlightedIndex =
        ((if c.state.highlightedIndex = -1 then 0 else c.state.highlightedIndex) - 1 +
          ((navigable c).length : Int)) % ((navigable c).length : Int) ∧
      (step c (Event.keyDown Key.arrowDown)).2 = none ∧
      (step c (Event.keyDown Key.arrowUp)).2 = none) := by
  constructor
  · intro hN
    unfold navigable at hN
    constructor <;> simp [step, handleInputKeyDown, hN]
  · intro hN
    unfold navigable at hN ⊢
    have hN0 : ¬(enabledFilteredOptions c.props.options c.state.searchValue).length = 0 := by
      omega
    have hsafe : 0 ≤ (if c.state.highlightedIndex = -1 then 0 else c.state.highlightedIndex) := by
      split <;> omega
    have hdown : (if Key.arrowDown = Key.arrowDown then (1 : Int) else -1) = 1 := rfl
    have hup : (if Key.arrowUp = Key.arrowDown then (1 : Int) else -1) = -1 := rfl
    refine ⟨?_, ?_, ?_, ?_⟩
    · simp only [step, handleInputKeyDown, hN0, if_false, hdown]
      rw [Int.tmod_eq_emod (by omega) (by omega)]
      rw [Int.add_emod_self]
      norm_num
    · simp only [step, handleInputKeyDown, hN0, if_false, hup]
      rw [Int.tmod_eq_emod (by omega) (by omega)]
      simp [Int.sub_eq_add_neg]
    · simp [step, handleInputKeyDown, hN0]
    · simp [step, handleInputKeyDown, hN0]

/-- Witness for C2: ArrowDown from the last highlight (index 2 of 3)
wraps to 0. -/
theorem arrow_key_transition_witness :
    (step lastHighlightConfig (Event.keyDown Key.arrowDown)).1.state.highlightedIndex = 0 := by
  have h := (arrow_key_transition lastHighlightConfig (by decide)).2 (by decide)
  rw [h.1]
  decide

/-- Counterexample to claim C2 as stated: from highlight -1 over two
navigable options, the claim demands 0 for either key, but ArrowDown
yields 1 and ArrowUp yields 1. -/
theorem arrow_key_transition_cex :
    noHighlightConfig.state.highlightedIndex = -1 ∧
    (navigable noHighlightConfig).length = 2 ∧
    (step noHighlightConfig (Event.keyDown Key.arrowDown)).1.state.highlightedIndex = 1 ∧
    (step noHighlightConfig (Event.keyDown Key.arrowUp)).1.state.highlightedIndex = 1 := by
  decide

end SearchableSelect

namespace SearchableSelect

/-- Claim C3 (amended): Enter with `0 ≤ HighlightIndex < |NavigableOptions|`
closes the popover and reports exactly the highlighted option's value
through the callback; Enter with HighlightIndex = -1 changes nothing and
reports nothing.  (The claim's original premise "HighlightIndex ≥ 0"
alone is not enough: a stale out-of-range index is guarded — see the
counterexample and claim C10.) -/
theorem enter_confirm (c : Config) :
    (c.state.highlightedIndex = -1 → step c (Event.keyDown Key.enter) = (c, none)) ∧
    (∀ hlt : c.state.highlightedIndex.toNat < (navigable c).length,
      0 ≤ c.state.highlightedIndex →
      step c (Event.keyDown Key.enter) =
        (⟨c.props, { c.state with openState := false }⟩,
          some ((navigable c).get ⟨c.state.highlightedIndex.toNat, hlt⟩).value)) := by
  constructor
  · intro hneg
    by_cases hN : (enabledFilteredOptions c.props.options c.state.searchValue).length = 0
    · simp [step, handleInputKeyDown, hN]
    · simp [step, handleInputKeyDown, hN, hneg]
  · intro hlt hge
    have hlt' : c.state.highlightedIndex.toNat <
        (enabledFilteredOptions c.props.options c.state.searchValue).length := hlt
    have hN : ¬(enabledFilteredOptions c.props.options c.state.searchValue).length = 0 := by
      omega
    have hsome : (enabledFilteredOptions c.props.options
        c.state.searchValue)[c.state.highlightedIndex.toNat]? =
        some ((enabledFilteredOptions c.props.options c.state.searchValue).get
          ⟨c.state.highlightedIndex.toNat, hlt'⟩) := by
      rw [← List.get?_eq_getElem?]
      exact List.get?_eq_get hlt'
    simp [step, handleInputKeyDown, hN, hge, hsome, handleSelect, navigable]

/-- Witness for C3: Enter on a widget whose highlight is index 1 of two
options closes it and reports "b". -/
theorem enter_confirm_witness :
    step secondHighlightConfig (Event.keyDown Key.enter) =
      (⟨secondHighlightConfig.props, { secondHighlightConfig.state with openState := false }⟩,
        some "b") := by
  have h := (enter_confirm secondHighlightConfig).2 (by decide) (by decide)
  rw [h]
  decide

/-- Counterexample to claim C3 as stated: at a reachable-shape state with
HighlightIndex = 5 ≥ 0 over one navigable option, Enter neither closes
the popover nor invokes the callback. -/
theorem enter_confirm_cex :
    0 ≤ staleHighlightConfig.state.highlightedIndex ∧
    0 < (navigable staleHighlightConfig).length ∧
    (step staleHighlightConfig (Event.keyDown Key.enter)).1.state.openState = true ∧
    (step staleHighlightConfig (Event.keyDown Key.enter)).2 = none := by
  decide

/-- Claim C8 (amended): through the toolkit's wiring a click commits only
enabled visible options: a click on an enabled filtered row closes the
popover and reports that option's value, and a click on a disabled row is
suppressed by the collaborator's `disabled` wiring.  The component's own
row handler, however, contains no disabled guard: invoked directly
(wiring bypassed) it closes and reports even a disabled option. -/
theorem click_commit (c : Config) :
    (∀ i o, (filteredOptions c.props.options c.state.searchValue).get? i = some o →
      o.disabled = false →
      step c (Event.clickOption i) =
        (⟨c.props, { c.state with openState := false }⟩, some o.value)) ∧
    (∀ i o, (filteredOptions c.props.options c.state.searchValue).get? i = some o →
      o.disabled = true → step c (Event.clickOption i) = (c, none)) ∧
    (∀ o s, itemOnSelect o s = ({ s with openState := false }, some o.value)) := by
  refine ⟨?_, ?_, fun o s => rfl⟩
  · intro i o hio hd
    have hio' : (filteredOptions c.props.options c.state.searchValue)[i]? = some o := by
      rw [← List.get?_eq_getElem?]
      exact hio
    simp [step, hio', hd, itemOnSelect, handleSelect]
  · intro i o hio hd
    have hio' : (filteredOptions c.props.options c.state.searchValue)[i]? = some o := by
      rw [← List.get?_eq_getElem?]
      exact hio
    simp [step, hio', hd]

/-- Witness for C8: clicking the enabled row 0 of `disabledRowConfig`
closes the widget and reports "a". -/
theorem click_commit_witness :
    step disabledRowConfig (Event.clickOption 0) =
      (⟨disabledRowConfig.props, { disabledRowConfig.state with openState := false }⟩,
        some "a") := by
  have h := (click_commit disabledRowConfig).1 0 optA (by decide) (by decide)
  rw [h]
  rfl

/-- Counterexample to claim C8 as stated: the rendered disabled row
`optXDis` of `disabledRowConfig`, its `onSelect` handler invoked with the
toolkit's disabled wiring bypassed, does invoke the callback (with "x")
and does close the widget. -/
theorem click_commit_cex :
    (filteredOptions disabledRowConfig.props.options
      disabledRowConfig.state.searchValue).get? 1 = some optXDis ∧
    optXDis.disabled = true ∧
    (itemOnSelect optXDis disabledRowConfig.state).2 = some "x" ∧
    (itemOnSelect optXDis disabledRowConfig.state).1.openState = false := by
  decide

end SearchableSelect

namespace SearchableSelect

/-- Claim C4 (amended): in every reachable configuration HighlightIndex is
an integer ≥ -1, and whenever it is a valid index into NavigableOptions
the indexed option is enabled and currently visible (a member of
FilteredOptions).  The claimed upper bound |NavigableOptions|-1 and the
claim that -1 occurs only when NavigableOptions is empty do not hold in
general — a search-text change that leaves no navigable option keeps the
highlight at 0 (see the counterexample), and every closed state keeps -1
whatever the options. -/
theorem highlight_invariant (c : Config) (h : Reachable c) :
    -1 ≤ c.state.highlightedIndex ∧
    (∀ o, (navigable c).get? c.state.highlightedIndex.toNat = some o →
      o.disabled = false ∧ o ∈ filteredOptions c.props.options c.state.searchValue) := by
  refine ⟨reachable_hi_ge c h, fun o ho => ?_⟩
  have hmem : o ∈ navigable c := List.get?_mem ho
  unfold navigable enabledFilteredOptions at hmem
  have hsplit := List.mem_filter.mp hmem
  exact ⟨by simpa using hsplit.2, hsplit.1⟩

/-- Witness for C4 at the freshly mounted single-option instance. -/
theorem highlight_invariant_witness :
    -1 ≤ (Config.mk ⟨none, [optA]⟩ initState).state.highlightedIndex :=
  (highlight_invariant ⟨⟨none, [optA]⟩, initState⟩ (Reachable.init _)).1

/-- Counterexample to claim C4 as stated: opening a single-option widget
and typing a search text matching nothing is a reachable two-event
sequence after which HighlightIndex is 0 while NavigableOptions is empty —
outside the claimed range [-1, -1], with a non-negative highlight that
indexes no enabled visible option. -/
theorem highlight_invariant_cex :
    Reachable searchedOutConfig ∧
    searchedOutConfig.state.openState = true ∧
    searchedOutConfig.state.highlightedIndex = 0 ∧
    (navigable searchedOutConfig).length = 0 ∧
    ¬ SpecHighlightInvariant searchedOutConfig := by
  refine ⟨Reachable.next _ _ (Reachable.next _ _ (Reachable.init _)),
    by decide, by decide, by decide, ?_⟩
  intro hinv
  have hub := hinv.2.1
  revert hub
  decide

/-- Claim C9 (amended): teardown cancels both debounced search-reset
timeouts, and once no timeout is armed a firing event is a complete
no-op; an armed close-scheduled reset is superseded (cancelled, and a
fresh one armed) by a later close event, and an armed value-change reset
by a later value change.  Reopening, however, does not cancel a pending
close-scheduled reset — see the counterexample, where the stale reset
clears the search text after the popover has been reopened. -/
theorem timer_cancellation (c : Config) (h : Reachable c) :
    ((step c Event.unmount).1.state.closeTimer = none ∧
     (step c Event.unmount).1.state.valueTimer = none) ∧
    (∀ tid, step (step c Event.unmount).1 (Event.fireCloseTimer tid) =
        ((step c Event.unmount).1, none) ∧
      step (step c Event.unmount).1 (Event.fireValueTimer tid) =
        ((step c Event.unmount).1, none)) ∧
    (∀ tid, c.state.closeTimer = some tid →
      step (step c (Event.openChange false)).1 (Event.fireCloseTimer tid) =
        ((step c (Event.openChange false)).1, none)) ∧
    (∀ tid q, c.state.valueTimer = some tid → ¬ q.value = c.props.value →
      step (step c (Event.setProps q)).1 (Event.fireValueTimer tid) =
        ((step c (Event.setProps q)).1, none)) := by
  obtain ⟨ihc, ihv⟩ := reachable_timersFresh c h
  refine ⟨⟨rfl, rfl⟩, fun tid => ⟨rfl, rfl⟩, ?_, ?_⟩
  · intro tid htid
    have hfresh := ihc tid htid
    set c2 := (step c (Event.openChange false)).1 with hc2
    have hct : c2.state.closeTimer = some c.state.timerSeq := by
      rw [hc2]
      simp [step, handleOpenChange]
    show step c2 (Event.fireCloseTimer tid) = (c2, none)
    simp only [step, hct]
    rw [if_neg (by omega : ¬ c.state.timerSeq = tid)]
  · intro tid q htid hq
    have hfresh := ihv tid htid
    set c2 := (step c (Event.setProps q)).1 with hc2
    have hvt : c2.state.valueTimer = some c.state.timerSeq := by
      rw [hc2]
      simp [step, hq]
    show step c2 (Event.fireValueTimer tid) = (c2, none)
    simp only [step, hvt]
    rw [if_neg (by omega : ¬ c.state.timerSeq = tid)]

/-- Witness for C9: at the reachable closed state with the reset armed
(identifier 1), a further close supersedes it and the old identifier can
no longer fire. -/
theorem timer_cancellation_witness :
    step (step closedPendingConfig (Event.openChange false)).1 (Event.fireCloseTimer 1) =
      ((step closedPendingConfig (Event.openChange false)).1, none) := by
  have hr : Reachable closedPendingConfig :=
    Reachable.next _ _ (Reachable.next _ _ (Reachable.next _ _ (Reachable.init _)))
  exact (timer_cancellation closedPendingConfig hr).2.2.1 1 (by decide)

/-- Counterexample to claim C9 as stated: closing with search text "ab"
arms the debounced reset (identifier 1); reopening within the delay does
not cancel it — the reset stays armed across the reopen and, when it
fires, clears the search text while the popover is open. -/
theorem timer_cancellation_cex :
    Reachable reopenedFiredConfig ∧
    closedPendingConfig.state.closeTimer = some 1 ∧
    reopenedConfig.state.openState = true ∧
    reopenedConfig.state.closeTimer = some 1 ∧
    reopenedConfig.state.searchValue = "ab" ∧
    reopenedFiredConfig.state.openState = true ∧
    reopenedFiredConfig.state.searchValue = "" := by
  refine ⟨Reachable.next _ _ (Reachable.next _ _ (Reachable.next _ _ (Reachable.next _ _
    (Reachable.next _ _ (Reachable.init _))))), ?_⟩
  decide

end SearchableSelect
